import Mathlib

/-!
Verification development for the retrieval-augmented chatbot backend
(`backend/app`).  Python strings are modelled as `List Char` (`Str`), the
clock and the uuid supply are passed explicitly, collaborator services
(the OpenAI embedding/response API, the NeMo guardrails engine, the
Chroma vector index) are modelled as function parameters or explicit
event lists, and the file-backed conversation store is modelled as an
explicit `Store` value threaded through the operations.
-/

set_option maxHeartbeats 1000000
set_option maxRecDepth 100000

/-- Python strings, modelled as lists of characters. -/
abbrev Str := List Char

/-- Shorthand turning a Lean string literal into the `Str` model. -/
def str (s : String) : Str := s.toList

/-- The characters Python's `str.strip` and the `re` module's `\s` treat as
whitespace (ASCII fragment): space, tab, newline, carriage return, vertical
tab, form feed. -/
def isPySpace (c : Char) : Bool :=
  c == ' ' || c == '\t' || c == '\n' || c == '\r' || c == Char.ofNat 11 || c == Char.ofNat 12

/-- Python `str.lstrip()`. -/
def pyLStrip (l : Str) : Str := l.dropWhile isPySpace

/-- Python `str.rstrip()`. -/
def pyRStrip (l : Str) : Str := (l.reverse.dropWhile isPySpace).reverse

/-- Python `str.strip()`. -/
def pyStrip (l : Str) : Str := pyRStrip (pyLStrip l)

/-- `startsWith pat l` holds when `pat` is an initial segment of `l`. -/
def startsWith : Str → Str → Bool
  | [], _ => true
  | _ :: _, [] => false
  | a :: pat, b :: l => a == b && startsWith pat l

/-- Python's substring test `pat in l`. -/
def containsSub : Str → Str → Bool
  | [], pat => startsWith pat []
  | l@(_ :: t), pat => startsWith pat l || containsSub t pat

/-- Python `sep.join(parts)`. -/
def joinSep (sep : Str) : List Str → Str
  | [] => []
  | [x] => x
  | x :: y :: xs => x ++ sep ++ joinSep sep (y :: xs)

/-- Joining a list of strings with single newlines: the separator the chunker
uses when it packs paragraphs into one chunk (`buf += "\n" + p`). -/
def joinNl : List Str → Str
  | [] => []
  | [p] => p
  | p :: q :: ps => p ++ '\n' :: joinNl (q :: ps)

/-- Position of the last newline character of a string, if any. -/
def lastNlPos : Str → Option Nat
  | [] => none
  | c :: rest =>
    match lastNlPos rest with
    | some j => some (j + 1)
    | none => if c == '\n' then some 0 else none

/-- Scanning loop of `re.split(r"\n\s*\n", text)`: leftmost matches of a
newline, greedy whitespace, and a final newline (so the separator runs up to
the last newline of the whitespace run).  `fuel` bounds the scan by the input
length; each step consumes at least one character, so `fuel = s.length` is
always enough. -/
def reSplitGo : Nat → Str → Str → List Str
  | _, cur, [] => [cur.reverse]
  | 0, cur, s => [cur.reverse ++ s]
  | fuel + 1, cur, c :: rest =>
    if c == '\n' then
      match lastNlPos (rest.takeWhile isPySpace) with
      | some j => cur.reverse :: reSplitGo fuel [] (rest.drop (j + 1))
      | none => reSplitGo fuel (c :: cur) rest
    else reSplitGo fuel (c :: cur) rest

/-- `re.split(r"\n\s*\n", text)` from `simple_chunk` (rag.py). -/
def reSplitBlank (text : Str) : List Str := reSplitGo text.length [] text

/-- `[p.strip() for p in re.split(r"\n\s*\n", text) if p.strip()]`: the
stripped non-empty paragraphs of the input (rag.py, `simple_chunk`). -/
def pyParas (text : Str) : List Str :=
  ((reSplitBlank text).map pyStrip).filter (fun p => !p.isEmpty)

/-- Loop body of `simple_chunk` (rag.py lines 8-13): flush the buffer when the
next paragraph would overflow `max_tokens_chars`, then append the paragraph to
the buffer with a newline separator. -/
def chunkStep (maxTokensChars : Int) (cb : List Str × Str) (p : Str) : List Str × Str :=
  let cb1 :=
    if ((cb.2.length : Int) + (p.length : Int) + 1 > maxTokensChars) then
      (if !cb.2.isEmpty then (cb.1 ++ [pyStrip cb.2], ([] : Str)) else cb)
    else cb
  (cb1.1, cb1.2 ++ (if !cb1.2.isEmpty then '\n' :: p else p))

/-- Final flush of `simple_chunk` (rag.py lines 14-15). -/
def chunkFinish (cb : List Str × Str) : List Str :=
  if !cb.2.isEmpty then cb.1 ++ [pyStrip cb.2] else cb.1

/-- `simple_chunk(text, max_tokens_chars)` (rag.py lines 5-16). -/
def simple_chunk (text : Str) (maxTokensChars : Int := 1200) : List Str :=
  chunkFinish ((pyParas text).foldl (chunkStep maxTokensChars) ([], []))

/-- Metadata carried by a vector-index match, as `build_context` reads it:
both the filename and text keys may be missing. -/
structure MatchMeta where
  filename : Option Str
  text : Option Str
deriving DecidableEq

/-- A match returned by `query_embeddings` (vector_db.py): a dict that may
carry a metadata dict. -/
structure RetrievalMatch where
  metadata : Option MatchMeta
deriving DecidableEq

/-- Loop body of `build_context` (rag.py lines 21-26). -/
def ctxStep (parts : List Str) (m : RetrievalMatch) : List Str :=
  let meta := m.metadata.getD ⟨none, none⟩
  let filename := meta.filename.getD (str "unknown-filename")
  let text := meta.text.getD []
  if !text.isEmpty then parts ++ [str "[Source : " ++ filename ++ str "] " ++ text] else parts

/-- `build_context(matches)` (rag.py lines 18-27). -/
def build_context (ms : List RetrievalMatch) : Str :=
  joinSep (str "\n\n") (ms.foldl ctxStep [])

/-- The per-match context line as the spec describes it (with the format
corrected to the one the code emits: a space before the colon). -/
def ctxLine (m : RetrievalMatch) : Option Str :=
  let meta := m.metadata.getD ⟨none, none⟩
  let text := meta.text.getD []
  if !text.isEmpty then
    some (str "[Source : " ++ meta.filename.getD (str "unknown-filename") ++ str "] " ++ text)
  else none

/-- Context building as the (amended) spec sentence words it: the blank-line
separated join, in input order, of the context lines of exactly those matches
whose metadata text is non-empty. -/
def build_context_spec (ms : List RetrievalMatch) : Str :=
  joinSep (str "\n\n") (ms.filterMap ctxLine)

/-- The guardrails engine behind `GuardrailsService` (guardrails.py): `none`
models a failed initialization (`self.rails = None`); otherwise
`rails.generate(messages=...)` is a function from the message list (role,
content pairs) to either a raised exception (`Except.error`) or a response
content string. -/
structure Gate where
  rails : Option (List (Str × Str) → Except Str Str)

/-- The blocking patterns of `check_input_safety` (guardrails.py lines 44-50). -/
def inputBlockingPatterns : List Str :=
  [str "I'm here to assist you with the Foundational Learning Program",
   str "I cannot help with",
   str "I'm designed to assist with the Petronas",
   str "For questions outside this program",
   str "I can only provide information based on the available learning materials"]

/-- The blocking patterns of `check_output_safety` (guardrails.py lines 93-97). -/
def outputBlockingPatterns : List Str :=
  [str "I cannot provide that response",
   str "I'm designed to assist with the Petronas",
   str "I can only provide information based on the available learning materials"]

/-- `GuardrailsService.check_input_safety` (guardrails.py lines 25-69).  The
returned pair is `(is_safe, message)`; the Python result's third component (a
details dict the callers discard with `_`) is omitted. -/
def check_input_safety (g : Gate) (userQuery : Str) : Bool × Str :=
  match g.rails with
  | none => (false, str "Guardrails not initialized")
  | some gen =>
    match gen [(str "user", userQuery)] with
    | .error e => (false, str "Guardrails check failed: " ++ e)
    | .ok responseContent =>
      if inputBlockingPatterns.any (fun p => containsSub responseContent p) then
        (false, str "Query is out of scope or inappropriate")
      else
        (true, str "Query is safe and within scope")

/-- `GuardrailsService.check_output_safety` (guardrails.py lines 71-116). -/
def check_output_safety (g : Gate) (llmResponse : Str) : Bool × Str :=
  match g.rails with
  | none => (false, str "Guardrails not initialized")
  | some gen =>
    match gen [(str "user", str "Test query"), (str "assistant", llmResponse)] with
    | .error e => (false, str "Guardrails check failed: " ++ e)
    | .ok responseContent =>
      if outputBlockingPatterns.any (fun p => containsSub responseContent p) then
        (false, str "Response contains inappropriate content")
      else
        (true, str "Response is safe")

/-- `GuardrailsService.get_safe_response` (guardrails.py lines 118-122): the
fixed safe fallback message, ignoring the original response. -/
def get_safe_response (_originalResponse : Str) : Str :=
  str "I'm here to assist you with the Foundational Learning Program at Petronas. For questions outside this program, you might want to explore other resources or speak with the appropriate professionals."

/-- A stored conversation (schemas.py `Conversation`), timestamps as Nat. -/
structure Conversation where
  id : Str
  title : Str
  created_at : Nat
  updated_at : Nat
deriving DecidableEq

/-- A stored message (schemas.py `Message`). -/
structure Message where
  id : Str
  conversation_id : Str
  role : Str
  content : Str
  response_id : Option Str
  parent_message_id : Option Str
  created_at : Nat
deriving DecidableEq

/-- The file-backed conversation store (conversation_service.py): the
conversations dict (as an association list keyed by conversation id) and the
message list in append order. -/
structure Store where
  conversations : List (Str × Conversation)
  messages : List Message
deriving DecidableEq

/-- Dictionary lookup `conversations.get(conversation_id)`. -/
def lookupConv : List (Str × Conversation) → Str → Option Conversation
  | [], _ => none
  | (k, c) :: t, key => if k = key then some c else lookupConv t key

/-- `get_conversation` (conversation_service.py lines 74-77). -/
def get_conversation (s : Store) (conversationId : Str) : Option Conversation :=
  lookupConv s.conversations conversationId

/-- `create_conversation` (conversation_service.py lines 56-72); the uuid and
`datetime.now()` are passed in as `freshId` and `now`. -/
def create_conversation (freshId : Str) (now : Nat) (title : Str) (s : Store) :
    Conversation × Store :=
  let conversation : Conversation := ⟨freshId, title, now, now⟩
  (conversation, { s with conversations := s.conversations ++ [(freshId, conversation)] })

/-- The dict mutation `conversations[conversation_id].updated_at = now` of
`add_message`. -/
def bumpConv (now : Nat) (conversationId : Str) (l : List (Str × Conversation)) :
    List (Str × Conversation) :=
  l.map (fun kc => if kc.1 = conversationId then (kc.1, { kc.2 with updated_at := now }) else kc)

/-- `add_message` (conversation_service.py lines 84-115): append the new
message, then bump the conversation's `updated_at` when the conversation
exists.  The uuid and `datetime.now()` are passed in as `freshId` and `now`. -/
def add_message (freshId : Str) (now : Nat) (s : Store) (conversationId role content : Str)
    (responseId : Option Str := none) (parentMessageId : Option Str := none) :
    Message × Store :=
  let message : Message := ⟨freshId, conversationId, role, content, responseId, parentMessageId, now⟩
  let messages := s.messages ++ [message]
  let conversations :=
    if (lookupConv s.conversations conversationId).isSome then
      bumpConv now conversationId s.conversations
    else s.conversations
  (message, { conversations := conversations, messages := messages })

/-- `get_conversation_messages` (conversation_service.py lines 117-120). -/
def get_conversation_messages (s : Store) (conversationId : Str) : List Message :=
  s.messages.filter (fun m => m.conversation_id == conversationId)

/-- `get_last_assistant_response_id` (conversation_service.py lines 122-131):
scan in reverse append order for an assistant message with a truthy
response_id (Python truthiness: present and non-empty). -/
def get_last_assistant_response_id (s : Store) (conversationId : Str) : Option Str :=
  (get_conversation_messages s conversationId).reverse.findSome? (fun m =>
    if m.role == str "assistant" then
      match m.response_id with
      | some r => if !r.isEmpty then some r else none
      | none => none
    else none)

/-- The external collaborators of the pipeline (llm_service.py, vector_db.py):
`embed` is the embedding API (`generate_embedding`), `queryIdx` the vector
index nearest-neighbour query (`query_embeddings` with no filter), and `api`
the blocking `client.responses.create` call of `generate_response` applied to
(query, context, previous_response_id, history); `api` returns the response
text and response id, or a raised exception.  The vector type `V` is abstract
(float vectors carry no other structure the pipeline relies on). -/
structure Env (V : Type) where
  embed : Str → V
  queryIdx : V → Int → List RetrievalMatch
  api : Str → Str → Option Str → Str → Except Str (Str × Str)

/-- `generate_response` (llm_service.py lines 311-368): input safety gate,
blocking API call, strip, output safety gate with fallback substitution. -/
def generate_response {V : Type} (g : Gate) (env : Env V) (query context : Str)
    (previousResponseId : Option Str := none) (history : Str := []) :
    Except Str (Str × Str) :=
  let inputCheck := check_input_safety g query
  if !inputCheck.1 then .ok (inputCheck.2, [])
  else
    match env.api query context previousResponseId history with
    | .error e => .error e
    | .ok (outputText, responseId) =>
      let responseText := pyStrip outputText
      let outCheck := check_output_safety g responseText
      .ok ((if outCheck.1 then responseText else get_safe_response responseText), responseId)

/-- One event of the OpenAI streaming response, as `generate_response_stream`
reads it: an optional `event.response.id` and an optional `event.delta`. -/
structure ApiEvent where
  responseId : Option Str
  delta : Option Str
deriving DecidableEq

/-- The internal events `generate_response_stream` yields to `chat_stream`:
dicts with `type` `"metadata"`, `"content"` or `"done"`.  A `done` dict always
carries a `response_id` key (possibly `None`); the `fullContent` field models
the optional `full_content` key `chat_stream` reads defensively (the producer
never sets it, so it is always `none` there). -/
inductive InnerEvent where
  | metadata (responseId : Option Str)
  | content (content : Str)
  | done (responseId : Option Str) (fullContent : Option Str)
deriving DecidableEq

/-- Loop body of the `for event in stream` loop of `generate_response_stream`
(llm_service.py lines 283-291), over the accumulator (yielded events so far,
response_id, full_response). -/
def apiFoldStep (acc : List InnerEvent × Option Str × Str) (e : ApiEvent) :
    List InnerEvent × Option Str × Str :=
  let rid := match e.responseId with
    | some r => some r
    | none => acc.2.1
  match e.delta with
  | some d =>
    if !d.isEmpty then (acc.1 ++ [.content d], rid, acc.2.2 ++ d) else (acc.1, rid, acc.2.2)
  | none => (acc.1, rid, acc.2.2)

/-- `generate_response_stream` (llm_service.py lines 225-309).  The OpenAI
stream is modelled by the events it delivers (`apiEvents`) plus an optional
exception raised while iterating it (`apiExc`); on that exception the code
falls back to the blocking `generate_response`, whose own failure propagates
out of the generator.  The result is the list of yielded events together with
the exception escaping the generator, if any. -/
def generate_response_stream {V : Type} (g : Gate) (env : Env V) (query context : Str)
    (previousResponseId : Option Str) (history : Str)
    (apiEvents : List ApiEvent) (apiExc : Option Str) :
    List InnerEvent × Option Str :=
  let inputCheck := check_input_safety g query
  if !inputCheck.1 then ([.content inputCheck.2, .done none none], none)
  else
    let acc := apiEvents.foldl apiFoldStep ([], none, [])
    match apiExc with
    | some _ =>
      match generate_response g env query context previousResponseId history with
      | .ok (answer, respId) => (acc.1 ++ [.content answer, .done (some respId) none], none)
      | .error e => (acc.1, some e)
    | none =>
      let outCheck := check_output_safety g acc.2.2
      let withSafe :=
        if outCheck.1 then acc.1
        else acc.1 ++ [.content (str "\n\n" ++ get_safe_response acc.2.2)]
      (withSafe ++ [.done acc.2.1 none], none)

/-- Metadata stored with each chunk's vector (file_service.py). -/
structure ChunkMeta where
  filename : Str
  file_type : Str
  text : Str
  chunk_index : Nat
deriving DecidableEq

/-- An item upserted to the vector index (file_service.py). -/
structure VectorItem (V : Type) where
  id : Str
  values : V
  metadata : ChunkMeta
deriving DecidableEq

/-- `embed_texts` (rag.py lines 29-30). -/
def embed_texts {V : Type} (texts : List Str) (embedFunc : Str → V) : List V :=
  texts.map embedFunc

/-- Decimal rendering of a Nat, for the chunk ordinal in vector ids. -/
def natToStr (n : Nat) : Str := (toString n).toList

/-- The `for i, (chunk, emb) in enumerate(zip(chunks, embeddings))` item-build
loop shared by `process_text_file` and `process_pdf_file`; the random uuid
suffix of each id is supplied by `suffix`. -/
def mkItems {V : Type} (filename fileType : Str) (suffix : Nat → Str)
    (chunks : List Str) (embeddings : List V) : List (VectorItem V) :=
  (chunks.zip embeddings).enum.map (fun ie =>
    ⟨filename ++ str "-" ++ natToStr ie.1 ++ str "-" ++ suffix ie.1, ie.2.2,
     ⟨filename, fileType, ie.2.1, ie.1⟩⟩)

/-- `process_text_file` (file_service.py lines 9-26). -/
def process_text_file {V : Type} (embedF : Str → V) (suffix : Nat → Str)
    (content filename : Str) : List (VectorItem V) :=
  let chunks := simple_chunk content
  let embeddings := embed_texts chunks embedF
  mkItems filename (str "text") suffix chunks embeddings

/-- The page-concatenation `text += page.extract_text() + "\n"` of
`process_pdf_file`, over the extracted page texts. -/
def pdf_text (pages : List Str) : Str :=
  pages.foldl (fun t page => t ++ page ++ ['\n']) []

/-- `process_pdf_file` (file_service.py lines 28-60): the extracted page texts
are an input (PyPDF2 is external); an empty stripped text raises, and the
`except` clause wraps the message. -/
def process_pdf_file {V : Type} (embedF : Str → V) (suffix : Nat → Str)
    (pages : List Str) (filename : Str) : Except Str (List (VectorItem V)) :=
  let text := pdf_text pages
  if (pyStrip text).isEmpty then
    .error (str "Error processing pdf : No text content found in PDF")
  else
    let chunks := simple_chunk text
    let embeddings := embed_texts chunks embedF
    .ok (mkItems filename (str "pdf") suffix chunks embeddings)

/-- `upsert_embeddings` (vector_db.py lines 8-14): adds the items to the
index. -/
def upsert_embeddings {V : Type} (index : List (VectorItem V))
    (items : List (VectorItem V)) : List (VectorItem V) :=
  index ++ items

/-- `store_file_chunks` (file_service.py lines 62-67); result is (number of
chunks stored, new index, number of `upsert_embeddings` calls). -/
def store_file_chunks {V : Type} (index : List (VectorItem V))
    (items : List (VectorItem V)) : Nat × List (VectorItem V) × Nat :=
  if !items.isEmpty then (items.length, upsert_embeddings index items, 1)
  else (0, index, 0)

/-- The `/upload` endpoint's text branch (main.py lines 47-53): process the
decoded content, then store the chunks. -/
def upload_text {V : Type} (embedF : Str → V) (suffix : Nat → Str)
    (content filename : Str) (index : List (VectorItem V)) :
    Except Str Nat × List (VectorItem V) × Nat :=
  let items := process_text_file embedF suffix content filename
  let r := store_file_chunks index items
  (.ok r.1, r.2.1, r.2.2)

/-- The `/upload` endpoint's pdf branch (main.py lines 50-53): a raise from
`process_pdf_file` propagates (to the endpoint's 500 handler) before
`store_file_chunks` runs. -/
def upload_pdf {V : Type} (embedF : Str → V) (suffix : Nat → Str)
    (pages : List Str) (filename : Str) (index : List (VectorItem V)) :
    Except Str Nat × List (VectorItem V) × Nat :=
  match process_pdf_file embedF suffix pages filename with
  | .error e => (.error e, index, 0)
  | .ok items =>
    let r := store_file_chunks index items
    (.ok r.1, r.2.1, r.2.2)

/-- `ChatRequest` (schemas.py). -/
structure ChatRequest where
  query : Str
  top_k : Int := 5
  conversation_id : Option Str := none
deriving DecidableEq

/-- `ChatResponse` (schemas.py). -/
structure ChatResponse where
  answer : Str
  message_id : Str
  conversation_id : Str
  response_id : Str
deriving DecidableEq

/-- Python truthiness of `req.conversation_id` (`if req.conversation_id:`):
both `None` and the empty string count as absent. -/
def reqCid (req : ChatRequest) : Option Str :=
  match req.conversation_id with
  | some c => if c.isEmpty then none else some c
  | none => none

/-- The fresh uuids (`uuid.uuid4()`) and timestamp (`datetime.now()`) a chat
request consumes: ids for a created conversation, the user message and the
assistant message. -/
structure Fresh where
  convId : Str
  userMsgId : Str
  asstMsgId : Str
  now : Nat
deriving DecidableEq

/-- Conversation title derivation (main.py lines 95, 162, 166):
`req.query[:50] + "..." if len(req.query) > 50 else req.query`. -/
def mkTitle (query : Str) : Str :=
  if query.length > 50 then query.take 50 ++ str "..." else query

/-- Collaborator call counts of one request (embedding API, vector index
query, generation service). -/
structure Calls where
  embedCalls : Nat
  queryCalls : Nat
  generateCalls : Nat
deriving DecidableEq

/-- Outcome of the non-streaming `/chat` endpoint: the blocked-input error
stream (main.py lines 68-71), the 404 for a missing conversation (line 92), a
propagated collaborator exception (the 500 handler, line 123), or a
`ChatResponse`. -/
inductive ChatOutcome where
  | blocked (payload : Str)
  | notFound
  | upstreamError (detail : Str)
  | ok (response : ChatResponse)
deriving DecidableEq

/-- Result of the non-streaming `/chat` endpoint together with the store it
leaves behind and the collaborator call counts. -/
structure ChatOut where
  outcome : ChatOutcome
  store : Store
  calls : Calls
deriving DecidableEq

/-- `previous_response_id` resolution of `/chat` (main.py lines 81-83). -/
def chatPrev (req : ChatRequest) (store : Store) : Option Str :=
  match reqCid req with
  | some cid => get_last_assistant_response_id store cid
  | none => none

/-- Persistence tail of `/chat` (main.py lines 98-121): add the user message,
run the output gate, substitute the fallback if flagged, add the assistant
message, build the response. -/
def chatFinish (g : Gate) (f : Fresh) (req : ChatRequest) (answer responseId : Str)
    (conversation : Conversation) (store : Store) : ChatOut :=
  let um := add_message f.userMsgId f.now store conversation.id (str "user") req.query none none
  let outCheck := check_output_safety g answer
  let finalContent := if outCheck.1 then answer else get_safe_response answer
  let am := add_message f.asstMsgId f.now um.2 conversation.id (str "assistant") finalContent
    (some responseId) (some um.1.id)
  ⟨.ok ⟨finalContent, am.1.id, conversation.id, responseId⟩, am.2, ⟨1, 1, 1⟩⟩

/-- The non-streaming `/chat` endpoint (main.py lines 63-123): input gate,
embed, retrieve, context, threading lookup, generation, conversation
resolution (404 when a supplied id is missing), persistence. -/
def chat {V : Type} (g : Gate) (env : Env V) (f : Fresh) (req : ChatRequest)
    (store : Store) : ChatOut :=
  let inputCheck := check_input_safety g req.query
  if !inputCheck.1 then
    ⟨.blocked (str "Input blocked by guardrails: " ++ inputCheck.2), store, ⟨0, 0, 0⟩⟩
  else
    let qEmb := env.embed req.query
    let ms := env.queryIdx qEmb req.top_k
    let context := build_context ms
    let previousResponseId := chatPrev req store
    match generate_response g env req.query context previousResponseId [] with
    | .error e => ⟨.upstreamError e, store, ⟨1, 1, 1⟩⟩
    | .ok (answer, responseId) =>
      match reqCid req with
      | some cid =>
        match get_conversation store cid with
        | none => ⟨.notFound, store, ⟨1, 1, 1⟩⟩
        | some conversation => chatFinish g f req answer responseId conversation store
      | none =>
        let cs := create_conversation f.convId f.now (mkTitle req.query) store
        chatFinish g f req answer responseId cs.1 cs.2

/-- Externally delivered SSE events of `/chat/stream` (main.py lines 173, 189,
210, 214), with the JSON payloads modelled structurally. -/
inductive OuterEvent where
  | meta (conversationId userMessageId : Str)
  | delta (content : Str)
  | doneEv (messageId : Str) (responseId : Option Str)
  | errorEv (detail : Str)
deriving DecidableEq

/-- Outcome of `/chat/stream`: the blocked-input error stream, or the
delivered event sequence. -/
inductive StreamOutcome where
  | blocked (payload : Str)
  | events (events : List OuterEvent)
deriving DecidableEq

/-- Result of `/chat/stream` together with the store it leaves behind and the
collaborator call counts. -/
structure StreamOut where
  outcome : StreamOutcome
  store : Store
  calls : Calls
deriving DecidableEq

/-- Threading lookup and limited-history build of `/chat/stream` (main.py
lines 142-150). -/
def stream_history (req : ChatRequest) (store : Store) : Option Str × Str :=
  match reqCid req with
  | some cid =>
    let past := get_conversation_messages store cid
    let recent := if past.length > 5 then past.drop (past.length - 5) else past
    (get_last_assistant_response_id store cid,
     joinSep ['\n'] (recent.map (fun m =>
       (if m.role == str "user" then str "User: " else str "Assistant: ") ++ m.content)))
  | none => (none, [])

/-- The `for event in generate_response_stream(...)` loop of the
`chat_stream.generate` generator (main.py lines 179-214), over the inner
events and the exception the inner generator raises after them, if any; an
inner exception is caught and reported as a terminal error event.  State:
accumulated `full_response`, current `response_id`, the store. -/
def streamLoop (g : Gate) (asstId : Str) (now : Nat) (conversationId userMessageId : Str) :
    List InnerEvent → Option Str → Str → Option Str → Store → List OuterEvent × Store
  | [], exc, _, _, store =>
    (match exc with
     | some e => [.errorEv e]
     | none => [], store)
  | ev :: rest, exc, fullResponse, responseId, store =>
    match ev with
    | .metadata r =>
      streamLoop g asstId now conversationId userMessageId rest exc fullResponse r store
    | .content c =>
      if !c.isEmpty then
        let r := streamLoop g asstId now conversationId userMessageId rest exc
          (fullResponse ++ c) responseId store
        (.delta c :: r.1, r.2)
      else
        streamLoop g asstId now conversationId userMessageId rest exc fullResponse responseId store
    | .done rid fullContent =>
      let finalContent0 := fullContent.getD fullResponse
      let outCheck := check_output_safety g finalContent0
      let finalContent := if outCheck.1 then finalContent0 else get_safe_response finalContent0
      let am := add_message asstId now store conversationId (str "assistant") finalContent rid
        (some userMessageId)
      let r := streamLoop g asstId now conversationId userMessageId rest exc fullResponse rid am.2
      (.doneEv am.1.id rid :: r.1, r.2)

/-- Conversation resolution of the `chat_stream.generate` generator (main.py
lines 157-167): look up a supplied id, auto-creating a fresh conversation when
the id is missing or absent. -/
def resolve_conversation (f : Fresh) (req : ChatRequest) (store : Store) :
    Conversation × Store :=
  match reqCid req with
  | some cid =>
    match get_conversation store cid with
    | some conversation => (conversation, store)
    | none => create_conversation f.convId f.now (mkTitle req.query) store
  | none => create_conversation f.convId f.now (mkTitle req.query) store

/-- The streaming `/chat/stream` endpoint (main.py lines 125-218): input gate,
embed, retrieve, context, threading/history, then the `generate()` generator —
conversation resolution with auto-creation on a missing id, user-message
persistence, the metadata event, and the inner-event loop. -/
def chat_stream {V : Type} (g : Gate) (env : Env V) (f : Fresh) (req : ChatRequest)
    (apiEvents : List ApiEvent) (apiExc : Option Str) (store : Store) : StreamOut :=
  let inputCheck := check_input_safety g req.query
  if !inputCheck.1 then
    ⟨.blocked (str "Input blocked by guardrails: " ++ inputCheck.2), store, ⟨0, 0, 0⟩⟩
  else
    let qEmb := env.embed req.query
    let ms := env.queryIdx qEmb req.top_k
    let context := build_context ms
    let ph := stream_history req store
    let cs := resolve_conversation f req store
    let um := add_message f.userMsgId f.now cs.2 cs.1.id (str "user") req.query none none
    let inner := generate_response_stream g env req.query context ph.1 ph.2 apiEvents apiExc
    let le := streamLoop g f.asstMsgId f.now cs.1.id um.1.id inner.1 inner.2 [] none um.2
    ⟨.events (.meta cs.1.id um.1.id :: le.1), le.2, ⟨1, 1, 1⟩⟩

/-- The content payloads among a list of inner events, in order. -/
def innerContents (evs : List InnerEvent) : List Str :=
  evs.filterMap (fun ev =>
    match ev with
    | .content c => some c
    | _ => none)

/-- A string is stripped: neither end carries Python whitespace. -/
def Stripped (l : Str) : Prop :=
  (∀ a, l.head? = some a → isPySpace a = false) ∧
  (∀ a, l.getLast? = some a → isPySpace a = false)

/-- Invariant of one chunk of `simple_chunk`, seen as the run of paragraphs it
packs: the run is non-empty, its paragraphs are stripped and non-empty, and
either the newline-joined run fits in `maxTokensChars` or the run is a single
(possibly oversized) paragraph. -/
def GoodRun (maxTokensChars : Int) (run : List Str) : Prop :=
  run ≠ [] ∧ (∀ x ∈ run, x ≠ [] ∧ Stripped x) ∧
    (((joinNl run).length : Int) ≤ maxTokensChars ∨ ∃ q, run = [q])

/-- The non-empty deltas delivered by the modelled OpenAI stream, in order. -/
def apiDeltas (events : List ApiEvent) : List Str :=
  (events.filterMap ApiEvent.delta).filter (fun d => !d.isEmpty)

/-- The last response id carried by the modelled OpenAI stream, if any. -/
def apiRid (events : List ApiEvent) : Option Str :=
  events.foldl (fun r e =>
    match e.responseId with
    | some x => some x
    | none => r) none

/-- A gate whose engine answers every message list with a non-blocking
response. -/
def gateOk : Gate := ⟨some (fun _ => .ok (str "OK"))⟩

/-- A gate whose engine never initialized (`self.rails = None`). -/
def gateNone : Gate := ⟨none⟩

/-- A gate whose engine raises on every call. -/
def gateErr : Gate := ⟨some (fun _ => .error (str "boom"))⟩

/-- A gate whose engine answers with an input-blocking pattern, so every
query is flagged unsafe at input. -/
def gateBlockInput : Gate := ⟨some (fun _ => .ok (str "I cannot help with that"))⟩

/-- A gate whose engine flags exactly the assistant output "BAD": safe on
everything else (in particular on any user query and on any combined text
that merely contains "BAD"). -/
def gateFlagBad : Gate :=
  ⟨some (fun msgs =>
    if (str "assistant", str "BAD") ∈ msgs then .ok (str "I cannot provide that response")
    else .ok (str "OK"))⟩

/-- A collaborator environment over `V := Nat` whose generation API answers
"ans" with response id "rid". -/
def envAns : Env Nat := ⟨fun _ => 0, fun _ _ => [], fun _ _ _ _ => .ok (str "ans", str "rid")⟩

/-- A collaborator environment whose generation API answers "BAD". -/
def envBad : Env Nat := ⟨fun _ => 0, fun _ _ => [], fun _ _ _ _ => .ok (str "BAD", str "rid")⟩

/-- Concrete fresh ids and timestamp for witnesses. -/
def freshW : Fresh := ⟨str "conv-1", str "user-1", str "asst-1", 7⟩

/-- The empty store. -/
def storeEmpty : Store := ⟨[], []⟩

/-- A store holding one conversation `c1` and no messages. -/
def storeC10 : Store := ⟨[(str "c1", ⟨str "c1", str "t", 1, 2⟩)], []⟩

theorem head?_dropWhile_false (p : Char → Bool) (l : Str) (a : Char)
    (h : (l.dropWhile p).head? = some a) : p a = false := by
  induction l with
  | nil => simp at h
  | cons x t ih =>
    rw [List.dropWhile_cons] at h
    by_cases hx : p x
    · rw [if_pos hx] at h
      exact ih h
    · rw [if_neg hx] at h
      simp only [List.head?_cons, Option.some.injEq] at h
      subst h
      exact Bool.eq_false_iff.mpr hx

theorem getLast?_append_right (l r : List Char) (h : r ≠ []) :
    (l ++ r).getLast? = r.getLast? := by
  rw [List.getLast?_append]
  cases hr : r.getLast? with
  | some a => rfl
  | none => exact absurd (List.getLast?_eq_none_iff.mp hr) h

theorem getLast?_dropWhile (p : Char → Bool) (l : Str)
    (h : l.dropWhile p ≠ []) : (l.dropWhile p).getLast? = l.getLast? := by
  obtain ⟨t, ht⟩ := List.dropWhile_suffix (l := l) p
  conv_rhs => rw [← ht]
  rw [getLast?_append_right t _ h]

theorem stripped_pyStrip (l : Str) : Stripped (pyStrip l) := by
  constructor
  · intro a ha
    unfold pyStrip pyRStrip at ha
    rw [← List.getLast?_reverse] at ha
    rw [List.reverse_reverse] at ha
    by_cases hd : (pyLStrip l).reverse.dropWhile isPySpace = []
    · rw [hd] at ha; simp at ha
    · rw [getLast?_dropWhile isPySpace _ hd, List.getLast?_reverse] at ha
      unfold pyLStrip at ha
      exact head?_dropWhile_false isPySpace l a ha
  · intro a ha
    unfold pyStrip pyRStrip at ha
    rw [← List.head?_reverse, List.reverse_reverse] at ha
    exact head?_dropWhile_false isPySpace _ a ha

theorem pyStrip_eq_self (l : Str) (h : Stripped l) : pyStrip l = l := by
  have hl : pyLStrip l = l := by
    unfold pyLStrip
    cases l with
    | nil => rfl
    | cons x t =>
      rw [List.dropWhile_cons, if_neg]
      rw [h.1 x (by rfl)]
      simp
  unfold pyStrip
  rw [hl]
  unfold pyRStrip
  have : l.reverse.dropWhile isPySpace = l.reverse := by
    cases hr : l.reverse with
    | nil => rfl
    | cons x t =>
      rw [List.dropWhile_cons, if_neg]
      have hx : l.getLast? = some x := by rw [← List.head?_reverse, hr]; rfl
      rw [h.2 x hx]
      simp
  rw [this, List.reverse_reverse]

theorem head?_append_left (l r : Str) (h : l ≠ []) : (l ++ r).head? = l.head? := by
  cases l with
  | nil => exact absurd rfl h
  | cons x t => rfl

theorem joinNl_ne_nil (run : List Str) (h : run ≠ []) (hx : ∀ x ∈ run, x ≠ []) :
    joinNl run ≠ [] := by
  cases run with
  | nil => exact absurd rfl h
  | cons x t =>
    cases t with
    | nil => exact hx x (by simp)
    | cons y u =>
      show x ++ '\n' :: joinNl (y :: u) ≠ []
      simp

theorem stripped_joinNl (run : List Str) (h : run ≠ [])
    (hx : ∀ x ∈ run, x ≠ [] ∧ Stripped x) : Stripped (joinNl run) := by
  induction run with
  | nil => exact absurd rfl h
  | cons x t ih =>
    cases t with
    | nil => exact (hx x (by simp)).2
    | cons y u =>
      have hxne : x ≠ [] := (hx x (by simp)).1
      have hxs : Stripped x := (hx x (by simp)).2
      have htne : (y :: u : List Str) ≠ [] := by simp
      have hts : ∀ z ∈ y :: u, z ≠ [] ∧ Stripped z := fun z hz => hx z (by simp [hz])
      have hJ : Stripped (joinNl (y :: u)) := ih htne hts
      have hJne : joinNl (y :: u) ≠ [] := joinNl_ne_nil _ htne (fun z hz => (hts z hz).1)
      constructor
      · intro a ha
        rw [show joinNl (x :: y :: u) = x ++ '\n' :: joinNl (y :: u) from rfl] at ha
        rw [head?_append_left _ _ hxne] at ha
        exact hxs.1 a ha
      · intro a ha
        rw [show joinNl (x :: y :: u) = x ++ '\n' :: joinNl (y :: u) from rfl] at ha
        rw [getLast?_append_right _ _ (by simp)] at ha
        rw [show ('\n' :: joinNl (y :: u) : Str) = ['\n'] ++ joinNl (y :: u) from rfl] at ha
        rw [getLast?_append_right _ _ hJne] at ha
        exact hJ.2 a ha

theorem joinNl_append (a b : List Str) (ha : a ≠ []) (hb : b ≠ []) :
    joinNl (a ++ b) = joinNl a ++ '\n' :: joinNl b := by
  induction a with
  | nil => exact absurd rfl ha
  | cons x t ih =>
    cases t with
    | nil =>
      cases b with
      | nil => exact absurd rfl hb
      | cons y u => rfl
    | cons z w =>
      have : (z :: w : List Str) ++ b = z :: (w ++ b) := rfl
      calc joinNl ((x :: z :: w) ++ b)
          = x ++ '\n' :: joinNl ((z :: w) ++ b) := rfl
        _ = x ++ '\n' :: (joinNl (z :: w) ++ '\n' :: joinNl b) := by rw [ih (by simp)]
        _ = (x ++ '\n' :: joinNl (z :: w)) ++ '\n' :: joinNl b := by simp

theorem joinNl_concat (run : List Str) (p : Str) (h : run ≠ []) :
    joinNl (run ++ [p]) = joinNl run ++ '\n' :: p :=
  joinNl_append run [p] h (by simp)

theorem flatten_ne_nil (runs : List (List Str)) (h : runs ≠ [])
    (hr : ∀ r ∈ runs, r ≠ []) : runs.flatten ≠ [] := by
  cases runs with
  | nil => exact absurd rfl h
  | cons r t =>
    have : (r :: t).flatten = r ++ t.flatten := rfl
    rw [this]
    have := hr r (by simp)
    cases r with
    | nil => exact absurd rfl this
    | cons x u => simp

theorem joinNl_map_flatten (runs : List (List Str))
    (h : ∀ r ∈ runs, r ≠ [] ∧ ∀ x ∈ r, x ≠ []) :
    joinNl (runs.map joinNl) = joinNl runs.flatten := by
  induction runs with
  | nil => rfl
  | cons r t ih =>
    cases t with
    | nil => simp [joinNl]
    | cons s u =>
      have hr : r ≠ [] := (h r (by simp)).1
      have htail : ∀ r' ∈ s :: u, r' ≠ [] ∧ ∀ x ∈ r', x ≠ [] := fun r' hr' => h r' (by simp [hr'])
      have hflat : (s :: u : List (List Str)).flatten ≠ [] :=
        flatten_ne_nil _ (by simp) (fun r' hr' => (htail r' hr').1)
      calc joinNl ((r :: s :: u).map joinNl)
          = joinNl r ++ '\n' :: joinNl ((s :: u).map joinNl) := rfl
        _ = joinNl r ++ '\n' :: joinNl ((s :: u).flatten) := by rw [ih htail]
        _ = joinNl (r ++ (s :: u).flatten) := (joinNl_append _ _ hr hflat).symm
        _ = joinNl ((r :: s :: u).flatten) := by simp [List.flatten_cons]

theorem pyParas_ok (text : Str) : ∀ p ∈ pyParas text, p ≠ [] ∧ Stripped p := by
  intro p hp
  unfold pyParas at hp
  have hne := List.of_mem_filter hp
  have hmem := List.mem_of_mem_filter hp
  obtain ⟨q, _, hq⟩ := List.mem_map.mp hmem
  constructor
  · intro hcon
    rw [hcon] at hne
    simp at hne
  · rw [← hq]
    exact stripped_pyStrip q

theorem chunkStep_nil_buf (maxT : Int) (chunks : List Str) (p : Str) :
    chunkStep maxT (chunks, []) p = (chunks, p) := by
  simp [chunkStep]

theorem chunkStep_flush (maxT : Int) (chunks : List Str) (buf p : Str) (hb : buf ≠ [])
    (hc : (buf.length : Int) + (p.length : Int) + 1 > maxT) :
    chunkStep maxT (chunks, buf) p = (chunks ++ [pyStrip buf], p) := by
  simp [chunkStep, hc, hb, List.isEmpty_iff]

theorem chunkStep_pack (maxT : Int) (chunks : List Str) (buf p : Str) (hb : buf ≠ [])
    (hc : ¬((buf.length : Int) + (p.length : Int) + 1 > maxT)) :
    chunkStep maxT (chunks, buf) p = (chunks, buf ++ '\n' :: p) := by
  simp [chunkStep, hc, hb, List.isEmpty_iff]

theorem chunk_fold (maxT : Int) (rest : List Str) :
    ∀ (runs : List (List Str)) (bufRun : List Str),
    (∀ p ∈ rest, p ≠ [] ∧ Stripped p) →
    (∀ r ∈ runs, GoodRun maxT r) →
    (bufRun = [] ∨ GoodRun maxT bufRun) →
    ∃ runs' : List (List Str),
      chunkFinish (rest.foldl (chunkStep maxT) (runs.map joinNl, joinNl bufRun)) =
        runs'.map joinNl ∧
      runs'.flatten = runs.flatten ++ bufRun ++ rest ∧
      ∀ r ∈ runs', GoodRun maxT r := by
  induction rest with
  | nil =>
    intro runs bufRun _ hruns hbuf
    cases hbuf with
    | inl h =>
      subst h
      refine ⟨runs, ?_, by simp, hruns⟩
      show chunkFinish (runs.map joinNl, joinNl []) = runs.map joinNl
      simp [chunkFinish, joinNl]
    | inr h =>
      have hBne : joinNl bufRun ≠ [] := joinNl_ne_nil _ h.1 (fun x hx => (h.2.1 x hx).1)
      have hstrip : pyStrip (joinNl bufRun) = joinNl bufRun :=
        pyStrip_eq_self _ (stripped_joinNl _ h.1 h.2.1)
      refine ⟨runs ++ [bufRun], ?_, by simp, ?_⟩
      · show chunkFinish (runs.map joinNl, joinNl bufRun) = (runs ++ [bufRun]).map joinNl
        simp [chunkFinish, hBne, hstrip, List.isEmpty_iff]
      · intro r hr
        rcases List.mem_append.mp hr with h1 | h1
        · exact hruns r h1
        · simp only [List.mem_singleton] at h1
          subst h1
          exact h
  | cons p rest' ih =>
    intro runs bufRun hrest hruns hbuf
    have hp := hrest p (by simp)
    have hrest' : ∀ q ∈ rest', q ≠ [] ∧ Stripped q := fun q hq => hrest q (by simp [hq])
    have hpgood : GoodRun maxT [p] := ⟨by simp, by simpa using hp, Or.inr ⟨p, rfl⟩⟩
    rw [List.foldl_cons]
    cases hbuf with
    | inl hb =>
      subst hb
      rw [show joinNl ([] : List Str) = [] from rfl, chunkStep_nil_buf]
      obtain ⟨runs', e1, e2, e3⟩ := ih runs [p] hrest' hruns (Or.inr hpgood)
      refine ⟨runs', e1, ?_, e3⟩
      rw [e2]
      simp
    | inr hgood =>
      have hBne : joinNl bufRun ≠ [] := joinNl_ne_nil _ hgood.1 (fun x hx => (hgood.2.1 x hx).1)
      have hstrip : pyStrip (joinNl bufRun) = joinNl bufRun :=
        pyStrip_eq_self _ (stripped_joinNl _ hgood.1 hgood.2.1)
      by_cases hcond : ((joinNl bufRun).length : Int) + (p.length : Int) + 1 > maxT
      · rw [chunkStep_flush maxT _ _ _ hBne hcond, hstrip]
        rw [show runs.map joinNl ++ [joinNl bufRun] = (runs ++ [bufRun]).map joinNl by simp]
        have hruns2 : ∀ r ∈ runs ++ [bufRun], GoodRun maxT r := by
          intro r hr
          rcases List.mem_append.mp hr with h1 | h1
          · exact hruns r h1
          · simp only [List.mem_singleton] at h1
            subst h1
            exact hgood
        obtain ⟨runs', e1, e2, e3⟩ := ih (runs ++ [bufRun]) [p] hrest' hruns2 (Or.inr hpgood)
        refine ⟨runs', e1, ?_, e3⟩
        rw [e2]
        simp [List.flatten_append]
      · rw [chunkStep_pack maxT _ _ _ hBne hcond]
        have hjoin : joinNl bufRun ++ '\n' :: p = joinNl (bufRun ++ [p]) :=
          (joinNl_concat _ _ hgood.1).symm
        rw [hjoin]
        have hgood2 : GoodRun maxT (bufRun ++ [p]) := by
          refine ⟨by simp, ?_, Or.inl ?_⟩
          · intro x hx
            rcases List.mem_append.mp hx with h1 | h1
            · exact hgood.2.1 x h1
            · simp only [List.mem_singleton] at h1
              subst h1
              exact hp
          · rw [joinNl_concat _ _ hgood.1]
            simp only [List.length_append, List.length_cons]
            push_cast
            omega
        obtain ⟨runs', e1, e2, e3⟩ := ih runs (bufRun ++ [p]) hrest' hruns (Or.inr hgood2)
        refine ⟨runs', e1, ?_, e3⟩
        rw [e2]
        simp

theorem simple_chunk_runs (text : Str) (maxT : Int) :
    ∃ runs : List (List Str),
      simple_chunk text maxT = runs.map joinNl ∧
      runs.flatten = pyParas text ∧
      ∀ r ∈ runs, GoodRun maxT r := by
  obtain ⟨runs', e1, e2, e3⟩ := chunk_fold maxT (pyParas text) [] [] (pyParas_ok text)
    (by simp) (Or.inl rfl)
  exact ⟨runs', e1, by simpa using e2, e3⟩

/-- C5: for every input text and every max_chars bound, a chunk returned by
`simple_chunk` that exceeds the bound is one of the input's (stripped)
paragraphs — an oversized paragraph is emitted alone, never packed with
another paragraph; every other chunk fits the bound. -/
theorem simple_chunk_respects_max_chars (text : Str) (maxT : Int) (c : Str)
    (hc : c ∈ simple_chunk text maxT) (hover : (c.length : Int) > maxT) :
    c ∈ pyParas text := by
  obtain ⟨runs, e1, e2, e3⟩ := simple_chunk_runs text maxT
  rw [e1] at hc
  obtain ⟨run, hrun, hcrun⟩ := List.mem_map.mp hc
  rcases (e3 run hrun).2.2 with hle | ⟨q, hq⟩
  · rw [hcrun] at hle
    exact absurd hle (not_le.mpr hover)
  · subst hq
    have hqc : q = c := hcrun
    rw [← e2]
    exact List.mem_flatten.mpr ⟨[q], hrun, by simp [hqc]⟩

theorem simple_chunk_respects_max_chars_witness :
    str "aaaa" ∈ simple_chunk (str "aaaa\n\nbbbbbbbb") 3 ∧
    ((str "aaaa").length : Int) > 3 ∧
    str "aaaa" ∈ pyParas (str "aaaa\n\nbbbbbbbb") :=
  ⟨by decide, by decide,
   simple_chunk_respects_max_chars (str "aaaa\n\nbbbbbbbb") 3 (str "aaaa")
     (by decide) (by decide)⟩

/-- C6: for every non-empty input text, the chunks of `simple_chunk` joined
with the chunker's separator (a single newline) reconstruct exactly the
newline-join of the input's stripped paragraphs: no paragraph characters are
dropped, only the whitespace at paragraph boundaries is normalized. -/
theorem simple_chunk_lossless (text : Str) (maxT : Int) (h : text ≠ []) :
    joinNl (simple_chunk text maxT) = joinNl (pyParas text) := by
  obtain ⟨runs, e1, e2, e3⟩ := simple_chunk_runs text maxT
  rw [e1,
    joinNl_map_flatten runs (fun r hr => ⟨(e3 r hr).1, fun x hx => ((e3 r hr).2.1 x hx).1⟩),
    e2]

theorem simple_chunk_lossless_witness :
    (str "  hello \n \n world  " ≠ []) ∧
    joinNl (simple_chunk (str "  hello \n \n world  ") 1200) =
      joinNl (pyParas (str "  hello \n \n world  ")) :=
  ⟨by decide, simple_chunk_lossless (str "  hello \n \n world  ") 1200 (by decide)⟩

theorem foldl_ctxStep (ms : List RetrievalMatch) : ∀ acc : List Str,
    ms.foldl ctxStep acc = acc ++ ms.filterMap ctxLine := by
  induction ms with
  | nil =>
    intro acc
    simp
  | cons m t ih =>
    intro acc
    have hstep : ctxStep acc m = acc ++ (ctxLine m).toList := by
      simp only [ctxStep, ctxLine]
      split <;> simp_all
    rw [List.foldl_cons, ih, hstep]
    cases hcl : ctxLine m <;> simp [List.filterMap_cons, hcl]

/-- C4 (amended): `build_context` returns the blank-line-separated join, in
input order, of the string "[Source : <filename>] <text>" (note the space
before the colon, which is what the code emits) for exactly those matches
whose metadata text is non-empty; matches with missing or empty text
contribute nothing, and the empty input yields the empty string. -/
theorem build_context_correct (ms : List RetrievalMatch) :
    build_context ms = build_context_spec ms ∧ build_context [] = [] := by
  refine ⟨?_, rfl⟩
  unfold build_context build_context_spec
  rw [foldl_ctxStep]
  simp

/-- C4 counterexample: on a single match with filename "doc.txt" and text
"hi" the code emits "[Source : doc.txt] hi", not the "[Source: doc.txt] hi"
format the claim states. -/
theorem build_context_format_counterexample :
    build_context [⟨some ⟨some (str "doc.txt"), some (str "hi")⟩⟩] ≠ str "[Source: doc.txt] hi" ∧
    build_context [⟨some ⟨some (str "doc.txt"), some (str "hi")⟩⟩] = str "[Source : doc.txt] hi" :=
  ⟨by decide, by decide⟩

/-- C8: every internal failure of the safety gate — an uninitialized engine or
a raising engine call — makes both the input check and the output check return
is_safe = false (fail closed); the checks are total functions, so no gate
failure propagates as an error. -/
theorem guardrails_fail_closed (g : Gate) (t : Str) :
    (g.rails = none →
      (check_input_safety g t).1 = false ∧ (check_output_safety g t).1 = false) ∧
    (∀ gen e, g.rails = some gen → gen [(str "user", t)] = .error e →
      (check_input_safety g t).1 = false) ∧
    (∀ gen e, g.rails = some gen →
      gen [(str "user", str "Test query"), (str "assistant", t)] = .error e →
      (check_output_safety g t).1 = false) := by
  refine ⟨?_, ?_, ?_⟩
  · intro h
    constructor
    · simp [check_input_safety, h]
    · simp [check_output_safety, h]
  · intro gen e hg he
    simp [check_input_safety, hg, he]
  · intro gen e hg he
    simp [check_output_safety, hg, he]

theorem guardrails_fail_closed_witness :
    ((check_input_safety gateNone (str "x")).1 = false ∧
      (check_output_safety gateNone (str "x")).1 = false) ∧
    (check_input_safety gateErr (str "x")).1 = false ∧
    (check_output_safety gateErr (str "x")).1 = false :=
  ⟨(guardrails_fail_closed gateNone (str "x")).1 rfl,
   (guardrails_fail_closed gateErr (str "x")).2.1 (fun _ => .error (str "boom")) (str "boom")
     rfl rfl,
   (guardrails_fail_closed gateErr (str "x")).2.2 (fun _ => .error (str "boom")) (str "boom")
     rfl rfl⟩

theorem lookupConv_cons (k' : Str) (cv : Conversation) (t : List (Str × Conversation))
    (key : Str) :
    lookupConv ((k', cv) :: t) key = if k' = key then some cv else lookupConv t key := rfl

theorem bumpConv_cons (now : Nat) (cid k' : Str) (cv : Conversation)
    (t : List (Str × Conversation)) :
    bumpConv now cid ((k', cv) :: t) =
      (if k' = cid then (k', { cv with updated_at := now }) else (k', cv)) ::
        bumpConv now cid t := by
  by_cases h : k' = cid
  · simp [bumpConv, h]
  · simp [bumpConv, h]

theorem lookup_bump_self (now : Nat) (cid : Str) (l : List (Str × Conversation))
    (c : Conversation) (h : lookupConv l cid = some c) :
    lookupConv (bumpConv now cid l) cid = some { c with updated_at := now } := by
  induction l with
  | nil => simp [lookupConv] at h
  | cons kc t ih =>
    obtain ⟨k', cv⟩ := kc
    rw [lookupConv_cons] at h
    rw [bumpConv_cons]
    by_cases hk : k' = cid
    · rw [if_pos hk] at h ⊢
      injection h with h
      rw [lookupConv_cons, if_pos hk, h]
    · rw [if_neg hk] at h ⊢
      rw [lookupConv_cons, if_neg hk]
      exact ih h

theorem lookup_bump_other (now : Nat) (cid k : Str) (l : List (Str × Conversation))
    (hk : k ≠ cid) :
    lookupConv (bumpConv now cid l) k = lookupConv l k := by
  induction l with
  | nil => rfl
  | cons kc t ih =>
    obtain ⟨k', cv⟩ := kc
    rw [bumpConv_cons]
    by_cases h' : k' = cid
    · rw [if_pos h', lookupConv_cons, lookupConv_cons]
      have hne : ¬(k' = k) := fun hcon => hk (hcon ▸ h')
      rw [if_neg hne, if_neg hne]
      exact ih
    · rw [if_neg h', lookupConv_cons, lookupConv_cons]
      by_cases hkk : k' = k
      · rw [if_pos hkk, if_pos hkk]
      · rw [if_neg hkk, if_neg hkk]
        exact ih

theorem lookup_append_none (l l' : List (Str × Conversation)) (k : Str)
    (h : lookupConv l k = none) : lookupConv (l ++ l') k = lookupConv l' k := by
  induction l with
  | nil => rfl
  | cons kc t ih =>
    obtain ⟨k', cv⟩ := kc
    rw [lookupConv_cons] at h
    rw [List.cons_append, lookupConv_cons]
    by_cases h' : k' = k
    · rw [if_pos h'] at h
      exact absurd h (by simp)
    · rw [if_neg h'] at h
      rw [if_neg h']
      exact ih h

/-- C10: for every conversation id — including one that references no stored
conversation — `add_message` succeeds (it is a total function): it appends the
new message to the message list, leaving all previously stored messages
unchanged and preserving append order, and it bumps the conversation's
updated_at exactly when the conversation exists, leaving every other
conversation (and, for a missing id, the whole conversation table)
unchanged. -/
theorem add_message_total_spec (freshId : Str) (now : Nat) (s : Store)
    (cid role content : Str) (rid pid : Option Str) :
    ((add_message freshId now s cid role content rid pid).2).messages =
        s.messages ++ [(add_message freshId now s cid role content rid pid).1] ∧
    (add_message freshId now s cid role content rid pid).1 =
        ⟨freshId, cid, role, content, rid, pid, now⟩ ∧
    (lookupConv s.conversations cid = none →
      ((add_message freshId now s cid role content rid pid).2).conversations =
        s.conversations) ∧
    (∀ c, lookupConv s.conversations cid = some c →
      lookupConv ((add_message freshId now s cid role content rid pid).2).conversations cid =
          some { c with updated_at := now } ∧
      ∀ k, k ≠ cid →
        lookupConv ((add_message freshId now s cid role content rid pid).2).conversations k =
          lookupConv s.conversations k) := by
  refine ⟨rfl, rfl, ?_, ?_⟩
  · intro h
    simp [add_message, h]
  · intro c hc
    have hsome : (lookupConv s.conversations cid).isSome = true := by simp [hc]
    constructor
    · show lookupConv (if (lookupConv s.conversations cid).isSome then
        bumpConv now cid s.conversations else s.conversations) cid = _
      rw [if_pos hsome]
      exact lookup_bump_self now cid _ c hc
    · intro k hk
      show lookupConv (if (lookupConv s.conversations cid).isSome then
        bumpConv now cid s.conversations else s.conversations) k = _
      rw [if_pos hsome]
      exact lookup_bump_other now cid k _ hk

theorem add_message_total_spec_witness :
    ((add_message (str "m1") 9 storeEmpty (str "nope") (str "user") (str "hi")
        none none).2).conversations = storeEmpty.conversations ∧
    ((add_message (str "m1") 9 storeEmpty (str "nope") (str "user") (str "hi")
        none none).2).messages =
      storeEmpty.messages ++
        [(add_message (str "m1") 9 storeEmpty (str "nope") (str "user") (str "hi")
          none none).1] ∧
    lookupConv ((add_message (str "m2") 9 storeC10 (str "c1") (str "assistant") (str "a")
        (some (str "r")) none).2).conversations (str "c1") =
      some ⟨str "c1", str "t", 1, 9⟩ :=
  ⟨(add_message_total_spec (str "m1") 9 storeEmpty (str "nope") (str "user") (str "hi")
      none none).2.2.1 (by decide),
   (add_message_total_spec (str "m1") 9 storeEmpty (str "nope") (str "user") (str "hi")
      none none).1,
   ((add_message_total_spec (str "m2") 9 storeC10 (str "c1") (str "assistant") (str "a")
      (some (str "r")) none).2.2.2 ⟨str "c1", str "t", 1, 2⟩ (by decide)).1⟩

/-- C7: a PDF upload whose extracted text strips to nothing fails with the
InvalidDocument error, leaves the vector index unchanged and never calls
upsert; a text upload whose content yields zero chunks succeeds with a chunk
count of zero, likewise without calling upsert. -/
theorem ingestion_empty_handling {V : Type} (embedF : Str → V) (suffix : Nat → Str)
    (pages : List Str) (filename textFilename content : Str) (index : List (VectorItem V)) :
    ((pyStrip (pdf_text pages)).isEmpty = true →
      upload_pdf embedF suffix pages filename index =
        (.error (str "Error processing pdf : No text content found in PDF"), index, 0)) ∧
    (simple_chunk content = [] →
      upload_text embedF suffix content textFilename index = (.ok 0, index, 0)) := by
  constructor
  · intro h
    simp [upload_pdf, process_pdf_file, h]
  · intro h
    simp [upload_text, process_text_file, store_file_chunks, embed_texts, mkItems, h]

theorem ingestion_empty_handling_witness :
    ((pyStrip (pdf_text [str "   ", str " "])).isEmpty = true ∧
      upload_pdf (fun _ => (0 : Nat)) (fun _ => str "x") [str "   ", str " "] (str "f.pdf") [] =
        (.error (str "Error processing pdf : No text content found in PDF"), [], 0)) ∧
    (simple_chunk (str " \n \n ") = [] ∧
      upload_text (fun _ => (0 : Nat)) (fun _ => str "x") (str " \n \n ") (str "f.txt") [] =
        (.ok 0, [], 0)) :=
  ⟨⟨by decide,
    (ingestion_empty_handling (fun _ => (0 : Nat)) (fun _ => str "x") [str "   ", str " "]
      (str "f.pdf") (str "f.txt") (str " \n \n ") []).1 (by decide)⟩,
   ⟨by decide,
    (ingestion_empty_handling (fun _ => (0 : Nat)) (fun _ => str "x") [str "   ", str " "]
      (str "f.pdf") (str "f.txt") (str " \n \n ") []).2 (by decide)⟩⟩

/-- C2 (amended): a query the gate flags unsafe at input makes both chat paths
return the blocked error payload (which carries the gate's advisory message),
with zero calls to the embedder, the vector index and the generation service,
no response_id, and the store left completely unchanged — no message at all is
persisted (the claim's "blocked answer is recorded as a persisted message"
does not hold; nothing is recorded). -/
theorem chat_blocked_input {V : Type} (g : Gate) (env : Env V) (f : Fresh)
    (req : ChatRequest) (apiEvents : List ApiEvent) (apiExc : Option Str) (store : Store)
    (h : (check_input_safety g req.query).1 = false) :
    chat g env f req store =
      ⟨.blocked (str "Input blocked by guardrails: " ++ (check_input_safety g req.query).2),
       store, ⟨0, 0, 0⟩⟩ ∧
    chat_stream g env f req apiEvents apiExc store =
      ⟨.blocked (str "Input blocked by guardrails: " ++ (check_input_safety g req.query).2),
       store, ⟨0, 0, 0⟩⟩ := by
  constructor
  · simp [chat, h]
  · simp [chat_stream, h]

theorem chat_blocked_input_witness :
    (check_input_safety gateBlockInput (str "q")).1 = false ∧
    chat gateBlockInput envAns freshW ⟨str "q", 5, none⟩ storeEmpty =
      ⟨.blocked (str "Input blocked by guardrails: " ++
        (check_input_safety gateBlockInput (str "q")).2), storeEmpty, ⟨0, 0, 0⟩⟩ ∧
    chat_stream gateBlockInput envAns freshW ⟨str "q", 5, none⟩ [] none storeEmpty =
      ⟨.blocked (str "Input blocked by guardrails: " ++
        (check_input_safety gateBlockInput (str "q")).2), storeEmpty, ⟨0, 0, 0⟩⟩ :=
  ⟨by decide,
   (chat_blocked_input gateBlockInput envAns freshW ⟨str "q", 5, none⟩ [] none storeEmpty
     (by decide)).1,
   (chat_blocked_input gateBlockInput envAns freshW ⟨str "q", 5, none⟩ [] none storeEmpty
     (by decide)).2⟩

/-- C2 counterexample: with a gate that flags the query unsafe, both chat
paths return the blocked error payload and persist nothing — the message list
stays empty, so the blocked answer is not recorded as a persisted message in
any conversation, contrary to the claim. -/
theorem chat_blocked_input_counterexample :
    (check_input_safety gateBlockInput (str "q")).1 = false ∧
    (chat gateBlockInput envAns freshW ⟨str "q", 5, none⟩ storeEmpty).store.messages = [] ∧
    (chat gateBlockInput envAns freshW ⟨str "q", 5, none⟩ storeEmpty).outcome =
      .blocked (str "Input blocked by guardrails: Query is out of scope or inappropriate") ∧
    (chat_stream gateBlockInput envAns freshW ⟨str "q", 5, none⟩ [] none
      storeEmpty).store.messages = [] :=
  ⟨by decide, by decide, by decide, by decide⟩

theorem apiFold_acc (events : List ApiEvent) :
    ∀ (ds0 : List Str) (rid0 : Option Str),
    events.foldl apiFoldStep (ds0.map InnerEvent.content, rid0, ds0.flatten) =
      ((ds0 ++ apiDeltas events).map InnerEvent.content,
       events.foldl (fun r e =>
         match e.responseId with
         | some x => some x
         | none => r) rid0,
       (ds0 ++ apiDeltas events).flatten) := by
  induction events with
  | nil =>
    intro ds0 rid0
    simp [apiDeltas]
  | cons e t ih =>
    intro ds0 rid0
    rw [List.foldl_cons, List.foldl_cons]
    cases hd : e.delta with
    | none =>
      have hstep : apiFoldStep (ds0.map InnerEvent.content, rid0, ds0.flatten) e =
          (ds0.map InnerEvent.content,
           (match e.responseId with | some x => some x | none => rid0), ds0.flatten) := by
        simp [apiFoldStep, hd]
      rw [hstep, ih]
      simp [apiDeltas, List.filterMap_cons, hd]
    | some d =>
      by_cases hde : d.isEmpty = true
      · have hd0 : d = [] := List.isEmpty_iff.mp hde
        have hstep : apiFoldStep (ds0.map InnerEvent.content, rid0, ds0.flatten) e =
            (ds0.map InnerEvent.content,
             (match e.responseId with | some x => some x | none => rid0), ds0.flatten) := by
          simp [apiFoldStep, hd, hde]
        rw [hstep, ih]
        simp [apiDeltas, List.filterMap_cons, hd, hd0]
      · have hstep : apiFoldStep (ds0.map InnerEvent.content, rid0, ds0.flatten) e =
            ((ds0 ++ [d]).map InnerEvent.content,
             (match e.responseId with | some x => some x | none => rid0),
             (ds0 ++ [d]).flatten) := by
          simp [apiFoldStep, hd, hde, List.flatten_append]
        rw [hstep, ih]
        have hds : apiDeltas (e :: t) = d :: apiDeltas t := by
          simp [apiDeltas, List.filterMap_cons, hd, hde]
        rw [hds]
        simp

theorem apiFold_eq (events : List ApiEvent) :
    events.foldl apiFoldStep ([], none, []) =
      ((apiDeltas events).map InnerEvent.content, apiRid events,
       (apiDeltas events).flatten) := by
  have h := apiFold_acc events [] none
  simpa [apiRid] using h

theorem grs_no_exc {V : Type} (g : Gate) (env : Env V) (q c : Str) (p : Option Str)
    (h : Str) (events : List ApiEvent) (hsafe : (check_input_safety g q).1 = true) :
    generate_response_stream g env q c p h events none =
      (((apiDeltas events) ++
          (if (check_output_safety g (apiDeltas events).flatten).1 then []
           else [str "\n\n" ++ get_safe_response (apiDeltas events).flatten])).map
            InnerEvent.content ++
        [.done (apiRid events) none], none) := by
  simp only [generate_response_stream, hsafe, Bool.not_true, Bool.false_eq_true, if_false,
    apiFold_eq]
  cases hout : (check_output_safety g (apiDeltas events).flatten).1
  · simp [hout]
  · simp [hout]

theorem grs_exc_fallback_ok {V : Type} (g : Gate) (env : Env V) (q c : Str) (p : Option Str)
    (h : Str) (events : List ApiEvent) (e : Str) (answer respId : Str)
    (hsafe : (check_input_safety g q).1 = true)
    (hfb : generate_response g env q c p h = .ok (answer, respId)) :
    generate_response_stream g env q c p h events (some e) =
      ((apiDeltas events ++ [answer]).map InnerEvent.content ++
        [.done (some respId) none], none) := by
  simp only [generate_response_stream, hsafe, Bool.not_true, Bool.false_eq_true, if_false,
    apiFold_eq, hfb]
  simp

theorem grs_exc_fallback_err {V : Type} (g : Gate) (env : Env V) (q c : Str) (p : Option Str)
    (h : Str) (events : List ApiEvent) (e e' : Str)
    (hsafe : (check_input_safety g q).1 = true)
    (hfb : generate_response g env q c p h = .error e') :
    generate_response_stream g env q c p h events (some e) =
      ((apiDeltas events).map InnerEvent.content, some e') := by
  simp only [generate_response_stream, hsafe, Bool.not_true, Bool.false_eq_true, if_false,
    apiFold_eq, hfb]

theorem streamLoop_done (g : Gate) (aid : Str) (now : Nat) (cid uid : Str) (cs : List Str)
    (rid : Option Str) :
    ∀ (full : Str) (rid0 : Option Str) (store : Store),
    streamLoop g aid now cid uid (cs.map InnerEvent.content ++ [.done rid none]) none
        full rid0 store =
      ((cs.filter (fun c => !c.isEmpty)).map OuterEvent.delta ++ [.doneEv aid rid],
       (add_message aid now store cid (str "assistant")
         (if (check_output_safety g (full ++ cs.flatten)).1 then full ++ cs.flatten
          else get_safe_response (full ++ cs.flatten)) rid (some uid)).2) := by
  induction cs with
  | nil =>
    intro full rid0 store
    simp [streamLoop, add_message]
  | cons c t ih =>
    intro full rid0 store
    rw [List.map_cons, List.cons_append]
    by_cases hc : c.isEmpty = true
    · have hc0 : c = [] := List.isEmpty_iff.mp hc
      rw [show streamLoop g aid now cid uid
          (InnerEvent.content c :: (t.map InnerEvent.content ++ [.done rid none])) none
          full rid0 store =
          streamLoop g aid now cid uid (t.map InnerEvent.content ++ [.done rid none]) none
            full rid0 store from by simp [streamLoop, hc]]
      rw [ih]
      simp [hc0, List.filter_cons, hc]
    · rw [show streamLoop g aid now cid uid
          (InnerEvent.content c :: (t.map InnerEvent.content ++ [.done rid none])) none
          full rid0 store =
          (OuterEvent.delta c ::
            (streamLoop g aid now cid uid (t.map InnerEvent.content ++ [.done rid none]) none
              (full ++ c) rid0 store).1,
           (streamLoop g aid now cid uid (t.map InnerEvent.content ++ [.done rid none]) none
              (full ++ c) rid0 store).2) from by simp [streamLoop, hc]]
      rw [ih]
      simp [List.filter_cons, hc, List.append_assoc]

theorem streamLoop_error (g : Gate) (aid : Str) (now : Nat) (cid uid : Str) (cs : List Str)
    (e : Str) :
    ∀ (full : Str) (rid0 : Option Str) (store : Store),
    streamLoop g aid now cid uid (cs.map InnerEvent.content) (some e) full rid0 store =
      ((cs.filter (fun c => !c.isEmpty)).map OuterEvent.delta ++ [.errorEv e], store) := by
  induction cs with
  | nil =>
    intro full rid0 store
    simp [streamLoop]
  | cons c t ih =>
    intro full rid0 store
    rw [List.map_cons]
    by_cases hc : c.isEmpty = true
    · rw [show streamLoop g aid now cid uid
          (InnerEvent.content c :: t.map InnerEvent.content) (some e) full rid0 store =
          streamLoop g aid now cid uid (t.map InnerEvent.content) (some e) full rid0 store
          from by simp [streamLoop, hc]]
      rw [ih]
      simp [List.filter_cons, hc]
    · rw [show streamLoop g aid now cid uid
          (InnerEvent.content c :: t.map InnerEvent.content) (some e) full rid0 store =
          (OuterEvent.delta c ::
            (streamLoop g aid now cid uid (t.map InnerEvent.content) (some e)
              (full ++ c) rid0 store).1,
           (streamLoop g aid now cid uid (t.map InnerEvent.content) (some e)
              (full ++ c) rid0 store).2) from by simp [streamLoop, hc]]
      rw [ih]
      simp [List.filter_cons, hc]

theorem innerContents_map_content (cs : List Str) :
    innerContents (cs.map InnerEvent.content) = cs := by
  induction cs with
  | nil => rfl
  | cons c t ih =>
    simp only [innerContents, List.map_cons, List.filterMap_cons] at ih ⊢
    rw [ih]

theorem innerContents_append (l l' : List InnerEvent) :
    innerContents (l ++ l') = innerContents l ++ innerContents l' := by
  simp [innerContents, List.filterMap_append]

theorem chat_stream_safe_eq {V : Type} (g : Gate) (env : Env V) (f : Fresh)
    (req : ChatRequest) (apiEvents : List ApiEvent) (apiExc : Option Str) (store : Store)
    (hsafe : (check_input_safety g req.query).1 = true) :
    chat_stream g env f req apiEvents apiExc store =
      (let context := build_context (env.queryIdx (env.embed req.query) req.top_k)
       let ph := stream_history req store
       let cs := resolve_conversation f req store
       let um := add_message f.userMsgId f.now cs.2 cs.1.id (str "user") req.query none none
       let inner := generate_response_stream g env req.query context ph.1 ph.2 apiEvents apiExc
       let le := streamLoop g f.asstMsgId f.now cs.1.id um.1.id inner.1 inner.2 [] none um.2
       ⟨.events (.meta cs.1.id um.1.id :: le.1), le.2, ⟨1, 1, 1⟩⟩) := by
  simp [chat_stream, hsafe]

/-- C9: for every streaming chat that passes the input safety check, the
delivered event sequence is exactly one metadata event (carrying the resolved
conversation id and the user message id), then the inner stream's content
payloads in generation order with empty deltas suppressed, then exactly one
terminal event — a done event (carrying a message id and response id) when the
inner generator finishes, or a terminal error event when it raises after the
metadata event — and nothing follows the terminal event. -/
theorem stream_event_protocol {V : Type} (g : Gate) (env : Env V) (f : Fresh)
    (req : ChatRequest) (apiEvents : List ApiEvent) (apiExc : Option Str) (store : Store)
    (hsafe : (check_input_safety g req.query).1 = true) :
    ∃ (conversationId userMessageId : Str) (contents : List Str) (terminal : OuterEvent)
      (innerEvs : List InnerEvent) (innerExc : Option Str),
      generate_response_stream g env req.query
          (build_context (env.queryIdx (env.embed req.query) req.top_k))
          (stream_history req store).1 (stream_history req store).2 apiEvents apiExc =
        (innerEvs, innerExc) ∧
      contents = innerContents innerEvs ∧
      (chat_stream g env f req apiEvents apiExc store).outcome =
        .events (.meta conversationId userMessageId ::
          ((contents.filter (fun c => !c.isEmpty)).map OuterEvent.delta ++ [terminal])) ∧
      (innerExc = none → ∃ messageId responseId, terminal = .doneEv messageId responseId) ∧
      (∀ e, innerExc = some e → terminal = .errorEv e) := by
  rw [chat_stream_safe_eq g env f req apiEvents apiExc store hsafe]
  cases apiExc with
  | none =>
    refine ⟨(resolve_conversation f req store).1.id,
      (add_message f.userMsgId f.now (resolve_conversation f req store).2
        (resolve_conversation f req store).1.id (str "user") req.query none none).1.id,
      apiDeltas apiEvents ++
        (if (check_output_safety g (apiDeltas apiEvents).flatten).1 then []
         else [str "\n\n" ++ get_safe_response (apiDeltas apiEvents).flatten]),
      .doneEv f.asstMsgId (apiRid apiEvents),
      _, none,
      grs_no_exc g env req.query _ _ _ apiEvents hsafe, ?_, ?_, ?_, ?_⟩
    · rw [innerContents_append, innerContents_map_content]
      simp [innerContents]
    · simp only [grs_no_exc g env req.query _ _ _ apiEvents hsafe]
      rw [streamLoop_done]
    · intro _
      exact ⟨f.asstMsgId, apiRid apiEvents, rfl⟩
    · intro e he
      exact absurd he (by simp)
  | some e =>
    cases hgen : generate_response g env req.query
        (build_context (env.queryIdx (env.embed req.query) req.top_k))
        (stream_history req store).1 (stream_history req store).2 with
    | ok ar =>
      obtain ⟨ans, rid'⟩ := ar
      refine ⟨(resolve_conversation f req store).1.id,
        (add_message f.userMsgId f.now (resolve_conversation f req store).2
          (resolve_conversation f req store).1.id (str "user") req.query none none).1.id,
        apiDeltas apiEvents ++ [ans],
        .doneEv f.asstMsgId (some rid'),
        _, none,
        grs_exc_fallback_ok g env req.query _ _ _ apiEvents e ans rid' hsafe hgen,
        ?_, ?_, ?_, ?_⟩
      · rw [innerContents_append, innerContents_map_content]
        simp [innerContents]
      · simp only [grs_exc_fallback_ok g env req.query _ _ _ apiEvents e ans rid' hsafe hgen]
        rw [streamLoop_done]
      · intro _
        exact ⟨f.asstMsgId, some rid', rfl⟩
      · intro e' he'
        exact absurd he' (by simp)
    | error e' =>
      refine ⟨(resolve_conversation f req store).1.id,
        (add_message f.userMsgId f.now (resolve_conversation f req store).2
          (resolve_conversation f req store).1.id (str "user") req.query none none).1.id,
        apiDeltas apiEvents,
        .errorEv e',
        _, some e',
        grs_exc_fallback_err g env req.query _ _ _ apiEvents e e' hsafe hgen,
        ?_, ?_, ?_, ?_⟩
      · rw [innerContents_map_content]
      · simp only [grs_exc_fallback_err g env req.query _ _ _ apiEvents e e' hsafe hgen]
        rw [streamLoop_error]
      · intro hcon
        exact absurd hcon (by simp)
      · intro e'' he''
        injection he'' with he''
        rw [he'']

theorem stream_event_protocol_witness :
    (check_input_safety gateOk (str "hello")).1 = true ∧
    ∃ (conversationId userMessageId : Str) (contents : List Str) (terminal : OuterEvent)
      (innerEvs : List InnerEvent) (innerExc : Option Str),
      generate_response_stream gateOk envAns (str "hello")
          (build_context (envAns.queryIdx (envAns.embed (str "hello")) 5))
          (stream_history ⟨str "hello", 5, none⟩ storeEmpty).1
          (stream_history ⟨str "hello", 5, none⟩ storeEmpty).2
          [⟨some (str "r1"), some (str "He")⟩, ⟨none, some []⟩, ⟨none, some (str "y")⟩]
          none =
        (innerEvs, innerExc) ∧
      contents = innerContents innerEvs ∧
      (chat_stream gateOk envAns freshW ⟨str "hello", 5, none⟩
          [⟨some (str "r1"), some (str "He")⟩, ⟨none, some []⟩, ⟨none, some (str "y")⟩]
          none storeEmpty).outcome =
        .events (.meta conversationId userMessageId ::
          ((contents.filter (fun c => !c.isEmpty)).map OuterEvent.delta ++ [terminal])) ∧
      (innerExc = none → ∃ messageId responseId, terminal = .doneEv messageId responseId) ∧
      (∀ e, innerExc = some e → terminal = .errorEv e) :=
  ⟨by decide,
   stream_event_protocol gateOk envAns freshW ⟨str "hello", 5, none⟩
     [⟨some (str "r1"), some (str "He")⟩, ⟨none, some []⟩, ⟨none, some (str "y")⟩] none
     storeEmpty (by decide)⟩

theorem add_message_conversations_some (freshId : Str) (now : Nat) (s : Store)
    (cid role content : Str) (rid pid : Option Str) (c : Conversation)
    (h : lookupConv s.conversations cid = some c) :
    ((add_message freshId now s cid role content rid pid).2).conversations =
      bumpConv now cid s.conversations := by
  simp [add_message, h]

/-- C1: a request whose supplied conversation_id resolves to no stored
conversation makes the non-streaming chat fail with the NotFound outcome,
leaving the store untouched (no messages persisted), while the streaming chat
on the same input creates a fresh conversation titled with the first 50
characters of the query (ellipsis-suffixed when truncated) and completes
successfully with a terminal done event. -/
theorem conversation_id_resolution_asymmetry {V : Type} (g : Gate) (env : Env V) (f : Fresh)
    (req : ChatRequest) (store : Store) (cid : Str) (apiEvents : List ApiEvent)
    (hreq : req.conversation_id = some cid) (hcid : cid ≠ [])
    (hmiss : get_conversation store cid = none)
    (hsafe : (check_input_safety g req.query).1 = true)
    (hapi : ∀ q c p hi, ∃ r, env.api q c p hi = Except.ok r)
    (hfresh : get_conversation store f.convId = none) :
    ((chat g env f req store).outcome = .notFound ∧ (chat g env f req store).store = store) ∧
    ∃ (events : List OuterEvent) (messageId : Str) (responseId : Option Str),
      (chat_stream g env f req apiEvents none store).outcome = .events events ∧
      events.getLast? = some (.doneEv messageId responseId) ∧
      get_conversation (chat_stream g env f req apiEvents none store).store f.convId =
        some ⟨f.convId,
          (if req.query.length > 50 then req.query.take 50 ++ str "..." else req.query),
          f.now, f.now⟩ := by
  have hrc : reqCid req = some cid := by
    simp [reqCid, hreq, List.isEmpty_iff, hcid]
  constructor
  · obtain ⟨⟨ans, rid⟩, hok⟩ := hapi req.query
      (build_context (env.queryIdx (env.embed req.query) req.top_k)) (chatPrev req store) []
    have hgen : generate_response g env req.query
        (build_context (env.queryIdx (env.embed req.query) req.top_k))
        (chatPrev req store) [] =
        .ok ((if (check_output_safety g (pyStrip ans)).1 then pyStrip ans
              else get_safe_response (pyStrip ans)), rid) := by
      simp [generate_response, hsafe, hok]
    have hchat : chat g env f req store = ⟨.notFound, store, ⟨1, 1, 1⟩⟩ := by
      simp [chat, hsafe, hgen, hrc, hmiss]
    exact ⟨by rw [hchat], by rw [hchat]⟩
  · rw [chat_stream_safe_eq g env f req apiEvents none store hsafe]
    have hres : resolve_conversation f req store =
        create_conversation f.convId f.now (mkTitle req.query) store := by
      simp [resolve_conversation, hrc, hmiss]
    simp only [hres, create_conversation]
    simp only [grs_no_exc g env req.query _ _ _ apiEvents hsafe]
    rw [streamLoop_done]
    refine ⟨_, f.asstMsgId, apiRid apiEvents, rfl, ?_, ?_⟩
    · rw [← List.cons_append, List.getLast?_concat]
    · dsimp only
      have h1 : lookupConv (store.conversations ++
          [(f.convId, ⟨f.convId, mkTitle req.query, f.now, f.now⟩)]) f.convId =
          some ⟨f.convId, mkTitle req.query, f.now, f.now⟩ := by
        rw [lookup_append_none _ _ _ hfresh, lookupConv_cons, if_pos rfl]
      have h2 : lookupConv ((add_message f.userMsgId f.now
          ⟨store.conversations ++ [(f.convId, ⟨f.convId, mkTitle req.query, f.now, f.now⟩)],
            store.messages⟩
          f.convId (str "user") req.query none none).2).conversations f.convId =
          some ⟨f.convId, mkTitle req.query, f.now, f.now⟩ := by
        rw [add_message_conversations_some _ _ _ _ _ _ _ _ _ h1]
        exact lookup_bump_self f.now f.convId _ _ h1
      show lookupConv _ f.convId = _
      rw [add_message_conversations_some _ _ _ _ _ _ _ _ _ h2]
      exact lookup_bump_self f.now f.convId _ _ h2

theorem conversation_id_resolution_asymmetry_witness :
    ((⟨str "hi", 5, some (str "missing")⟩ : ChatRequest).conversation_id =
        some (str "missing")) ∧
    (str "missing" ≠ []) ∧
    get_conversation storeEmpty (str "missing") = none ∧
    (check_input_safety gateOk (str "hi")).1 = true ∧
    get_conversation storeEmpty freshW.convId = none ∧
    ((chat gateOk envAns freshW ⟨str "hi", 5, some (str "missing")⟩ storeEmpty).outcome =
        .notFound ∧
      (chat gateOk envAns freshW ⟨str "hi", 5, some (str "missing")⟩ storeEmpty).store =
        storeEmpty) ∧
    ∃ (events : List OuterEvent) (messageId : Str) (responseId : Option Str),
      (chat_stream gateOk envAns freshW ⟨str "hi", 5, some (str "missing")⟩
          [⟨some (str "r1"), some (str "Hey")⟩] none storeEmpty).outcome = .events events ∧
      events.getLast? = some (.doneEv messageId responseId) ∧
      get_conversation (chat_stream gateOk envAns freshW ⟨str "hi", 5, some (str "missing")⟩
          [⟨some (str "r1"), some (str "Hey")⟩] none storeEmpty).store freshW.convId =
        some ⟨freshW.convId,
          (if (str "hi").length > 50 then (str "hi").take 50 ++ str "..." else str "hi"),
          freshW.now, freshW.now⟩ :=
  ⟨by decide, by decide, by decide, by decide, by decide,
   (conversation_id_resolution_asymmetry gateOk envAns freshW ⟨str "hi", 5, some (str "missing")⟩
     storeEmpty (str "missing") [⟨some (str "r1"), some (str "Hey")⟩] (by decide) (by decide)
     (by decide) (by decide) (fun q c p hi => ⟨(str "ans", str "rid"), rfl⟩) (by decide)).1,
   (conversation_id_resolution_asymmetry gateOk envAns freshW ⟨str "hi", 5, some (str "missing")⟩
     storeEmpty (str "missing") [⟨some (str "r1"), some (str "Hey")⟩] (by decide) (by decide)
     (by decide) (by decide) (fun q c p hi => ⟨(str "ans", str "rid"), rfl⟩) (by decide)).2⟩

theorem chatFinish_safe_answer (g : Gate) (f : Fresh) (req : ChatRequest) (x rid : Str)
    (conv : Conversation) (s : Store) :
    ∃ resp, (chatFinish g f req (get_safe_response x) rid conv s).outcome = .ok resp ∧
      resp.answer = get_safe_response x ∧
      ∃ m, (chatFinish g f req (get_safe_response x) rid conv s).store.messages.getLast? =
          some m ∧ m.role = str "assistant" ∧ m.content = get_safe_response x := by
  have hgg : get_safe_response (get_safe_response x) = get_safe_response x := rfl
  have hfinal : (if (check_output_safety g (get_safe_response x)).1 then get_safe_response x
      else get_safe_response (get_safe_response x)) = get_safe_response x := by
    cases h : (check_output_safety g (get_safe_response x)).1
    · simp [h, hgg]
    · simp [h]
  refine ⟨⟨get_safe_response x, f.asstMsgId, conv.id, rid⟩, ?_, rfl, ?_⟩
  · show ChatOutcome.ok
        ⟨(if (check_output_safety g (get_safe_response x)).1 then get_safe_response x
          else get_safe_response (get_safe_response x)), f.asstMsgId, conv.id, rid⟩ =
      ChatOutcome.ok ⟨get_safe_response x, f.asstMsgId, conv.id, rid⟩
    rw [hfinal]
  · refine ⟨_, List.getLast?_concat _, rfl, ?_⟩
    show (if (check_output_safety g (get_safe_response x)).1 then get_safe_response x
      else get_safe_response (get_safe_response x)) = get_safe_response x
    exact hfinal

/-- C3 (amended): on the non-streaming path, a generated answer the gate flags
unsafe at output is substituted: the returned answer and the persisted
assistant message content both equal the fixed safe fallback.  On the
streaming path the original deltas have already been delivered before the
output check runs; the inner generator appends the fallback to the stream, and
the adapter persists the accumulated original followed by the fallback notice
— or the fixed fallback alone when its own re-check also flags that combined
text — rather than discarding the original. -/
theorem output_substitution_amended {V : Type} (g : Gate) (env : Env V) (f : Fresh)
    (req : ChatRequest) (apiEvents : List ApiEvent) (store : Store)
    (hsafe : (check_input_safety g req.query).1 = true)
    (hconv : ∀ c, reqCid req = some c → (get_conversation store c).isSome = true) :
    (∀ answerText responseId,
      env.api req.query (build_context (env.queryIdx (env.embed req.query) req.top_k))
          (chatPrev req store) [] = .ok (answerText, responseId) →
      (check_output_safety g (pyStrip answerText)).1 = false →
      ∃ resp, (chat g env f req store).outcome = .ok resp ∧
        resp.answer = get_safe_response (pyStrip answerText) ∧
        ∃ m, (chat g env f req store).store.messages.getLast? = some m ∧
          m.role = str "assistant" ∧ m.content = get_safe_response (pyStrip answerText)) ∧
    ((check_output_safety g (apiDeltas apiEvents).flatten).1 = false →
      ∃ m, (chat_stream g env f req apiEvents none store).store.messages.getLast? = some m ∧
        m.role = str "assistant" ∧
        m.content =
          (if (check_output_safety g ((apiDeltas apiEvents).flatten ++
                (str "\n\n" ++ get_safe_response (apiDeltas apiEvents).flatten))).1 = true then
            (apiDeltas apiEvents).flatten ++
              (str "\n\n" ++ get_safe_response (apiDeltas apiEvents).flatten)
          else
            get_safe_response ((apiDeltas apiEvents).flatten ++
              (str "\n\n" ++ get_safe_response (apiDeltas apiEvents).flatten)))) := by
  constructor
  · intro ans rid hok hflag
    have hgen : generate_response g env req.query
        (build_context (env.queryIdx (env.embed req.query) req.top_k))
        (chatPrev req store) [] = .ok (get_safe_response (pyStrip ans), rid) := by
      simp [generate_response, hsafe, hok, hflag]
    cases hr : reqCid req with
    | some c =>
      obtain ⟨conv, hcv⟩ := Option.isSome_iff_exists.mp (hconv c hr)
      have hchat : chat g env f req store =
          chatFinish g f req (get_safe_response (pyStrip ans)) rid conv store := by
        simp [chat, hsafe, hgen, hr, hcv]
      rw [hchat]
      exact chatFinish_safe_answer g f req (pyStrip ans) rid conv store
    | none =>
      have hchat : chat g env f req store =
          chatFinish g f req (get_safe_response (pyStrip ans)) rid
            (create_conversation f.convId f.now (mkTitle req.query) store).1
            (create_conversation f.convId f.now (mkTitle req.query) store).2 := by
        simp [chat, hsafe, hgen, hr]
      rw [hchat]
      exact chatFinish_safe_answer g f req (pyStrip ans) rid _ _
  · intro hflag2
    rw [chat_stream_safe_eq g env f req apiEvents none store hsafe]
    simp only [grs_no_exc g env req.query _ _ _ apiEvents hsafe, hflag2, Bool.false_eq_true,
      if_false]
    rw [streamLoop_done]
    dsimp only
    refine ⟨_, List.getLast?_concat _, rfl, ?_⟩
    simp [List.flatten_append]

theorem output_substitution_amended_witness :
    (∃ resp, (chat gateFlagBad envBad freshW ⟨str "q", 5, none⟩ storeEmpty).outcome =
        .ok resp ∧
      resp.answer = get_safe_response (pyStrip (str "BAD")) ∧
      ∃ m, (chat gateFlagBad envBad freshW ⟨str "q", 5, none⟩
          storeEmpty).store.messages.getLast? = some m ∧
        m.role = str "assistant" ∧ m.content = get_safe_response (pyStrip (str "BAD"))) ∧
    (∃ m, (chat_stream gateFlagBad envBad freshW ⟨str "q", 5, none⟩
          [⟨some (str "r1"), some (str "BAD")⟩] none storeEmpty).store.messages.getLast? =
        some m ∧
      m.role = str "assistant" ∧
      m.content =
        (if (check_output_safety gateFlagBad
              ((apiDeltas [⟨some (str "r1"), some (str "BAD")⟩]).flatten ++
                (str "\n\n" ++
                  get_safe_response
                    (apiDeltas [⟨some (str "r1"), some (str "BAD")⟩]).flatten))).1 = true then
          (apiDeltas [⟨some (str "r1"), some (str "BAD")⟩]).flatten ++
            (str "\n\n" ++
              get_safe_response (apiDeltas [⟨some (str "r1"), some (str "BAD")⟩]).flatten)
        else
          get_safe_response ((apiDeltas [⟨some (str "r1"), some (str "BAD")⟩]).flatten ++
            (str "\n\n" ++
              get_safe_response
                (apiDeltas [⟨some (str "r1"), some (str "BAD")⟩]).flatten)))) :=
  ⟨(output_substitution_amended gateFlagBad envBad freshW ⟨str "q", 5, none⟩
      [⟨some (str "r1"), some (str "BAD")⟩] storeEmpty (by decide)
      (fun c hc => Option.noConfusion hc)).1 (str "BAD") (str "rid") rfl (by decide),
   (output_substitution_amended gateFlagBad envBad freshW ⟨str "q", 5, none⟩
      [⟨some (str "r1"), some (str "BAD")⟩] storeEmpty (by decide)
      (fun c hc => Option.noConfusion hc)).2 (by decide)⟩

/-- C3 counterexample: with a gate that flags exactly the generated answer
"BAD" (and nothing else) unsafe at output, the streaming path delivers the
original "BAD" delta to the caller, and persists "BAD" followed by the
fallback notice — a content that differs from the fixed safe fallback and
contains the original generation, contradicting the claim that the original
is neither persisted nor shown. -/
theorem output_substitution_counterexample :
    (check_output_safety gateFlagBad (str "BAD")).1 = false ∧
    ((chat_stream gateFlagBad envAns freshW ⟨str "q", 5, none⟩
        [⟨some (str "r1"), some (str "BAD")⟩] none storeEmpty).store.messages.map
      Message.content) =
      [str "q", str "BAD" ++ str "\n\n" ++ get_safe_response (str "BAD")] ∧
    str "BAD" ++ str "\n\n" ++ get_safe_response (str "BAD") ≠ get_safe_response (str "BAD") ∧
    containsSub (str "BAD" ++ str "\n\n" ++ get_safe_response (str "BAD")) (str "BAD") = true ∧
    (chat_stream gateFlagBad envAns freshW ⟨str "q", 5, none⟩
        [⟨some (str "r1"), some (str "BAD")⟩] none storeEmpty).outcome =
      .events [.meta (str "conv-1") (str "user-1"), .delta (str "BAD"),
        .delta (str "\n\n" ++ get_safe_response (str "BAD")),
        .doneEv (str "asst-1") (some (str "r1"))] :=
  ⟨by decide, by decide, by decide, by decide, by decide⟩
